import Mathlib

/-!
Shallow embedding of the Envoy HTTP health-check filter core
(`source/extensions/filters/http/health_check/health_check.cc`):
the `HealthCheckCacheManager` time-windowed verdict cache, the cluster
health aggregation loop of `HealthCheckFilter::onComplete`, and the
decode/encode per-request state machine of `HealthCheckFilter`.

HTTP status codes are modelled as `Nat` (`Http::Code::OK = 200`,
`Http::Code::ServiceUnavailable = 503`).  The configured
`min_healthy_percentage`, a C++ `double` holding a configured percentage,
is modelled as an exact rational `ℚ`.
-/

namespace HealthCheck

/-- HTTP status code, as carried by `Http::Code`. -/
abbrev StatusCode := Nat

/-- `Http::CodeUtility::is2xx(code)`: `code >= 200 && code < 300`. -/
def is2xx (code : StatusCode) : Bool := 200 ≤ code && code < 300

/-! ## Cluster registry (external collaborator) -/

/-- Per-cluster membership statistics, read through
`cluster->info()->stats()` in `onComplete`. -/
structure ClusterStats where
  membership_total : Nat
  membership_healthy : Nat
  membership_degraded : Nat
deriving DecidableEq, Repr

/-- The cluster registry lookup capability (`context_.clusterManager().get`):
a resolved cluster yields its stats, an unresolved name yields `none`. -/
abbrev ClusterManager := String → Option ClusterStats

/-- One entry of `cluster_min_healthy_percentages_`: a cluster name paired
with the configured minimum healthy percentage. -/
structure ClusterMinHealthyPercentage where
  cluster_name : String
  min_healthy_percentage : ℚ
deriving DecidableEq, Repr

/-! ## Cluster health evaluation loop of `HealthCheckFilter::onComplete`

Faithful transcription of the `for` loop over
`*cluster_min_healthy_percentages_` (health_check.cc lines 113-143):
`final_status` starts at `OK` (200) and the loop `break`s with
`ServiceUnavailable` (503) at the first failing cluster. -/

/-- The evaluation loop: first failing threshold short-circuits to 503,
otherwise the status stays 200. -/
def evaluateClusters (cm : ClusterManager) :
    List ClusterMinHealthyPercentage → StatusCode
  | [] => 200
  | item :: rest =>
    match cm item.cluster_name with
    | none =>
      -- "If the cluster does not exist at all, consider the service unhealthy."
      503
    | some stats =>
      if stats.membership_total = 0 then
        -- empty cluster: unhealthy unless the minimum is exactly zero
        if item.min_healthy_percentage = 0 then
          evaluateClusters cm rest
        else
          503
      else if ((stats.membership_healthy : ℚ) + stats.membership_degraded) <
          (stats.membership_total : ℚ) * item.min_healthy_percentage / 100 then
        503
      else
        evaluateClusters cm rest

/-- Reference definition following the claim's words: a single threshold
passes iff the cluster resolves, and then: zero total membership passes
exactly when the minimum is 0; otherwise it passes exactly when
`(healthy + degraded) / total * 100 ≥ minimum` (equality passes). -/
def thresholdPassesSpec (cm : ClusterManager)
    (item : ClusterMinHealthyPercentage) : Prop :=
  match cm item.cluster_name with
  | none => False
  | some stats =>
    if stats.membership_total = 0 then
      item.min_healthy_percentage = 0
    else
      ((stats.membership_healthy : ℚ) + stats.membership_degraded) /
        (stats.membership_total : ℚ) * 100 ≥ item.min_healthy_percentage

instance (cm : ClusterManager) (item : ClusterMinHealthyPercentage) :
    Decidable (thresholdPassesSpec cm item) := by
  unfold thresholdPassesSpec
  cases cm item.cluster_name with
  | none => exact inferInstanceAs (Decidable False)
  | some stats => exact inferInstanceAs (Decidable (ite _ _ _))

/-! ## `HealthCheckCacheManager`

The constructor and `onTimer` are in health_check.cc (lines 23-33): the
constructor creates the recurring timer and calls `onTimer()` once, and
each `onTimer` clears `use_cached_response_` and re-arms the timer.  The
accessors (`useCachedResponse`, `getCachedResponse`, `setCachedResponse`)
live in the header, which is not part of the visible source; they are
modelled from the spec below. -/

/-- State of a `HealthCheckCacheManager`: the cached verdict
(status + degraded), whether a verdict has ever been stored, and the
freshness flag `use_cached_response_`. -/
structure CacheState where
  cachedStatus : StatusCode
  cachedDegraded : Bool
  /-- Modelled from the spec: "a prior verdict exists" — whether
  `setCachedVerdict` has ever stored a verdict. -/
  hasVerdict : Bool
  /-- `use_cached_response_`: the verdict is usable until the next timer
  expiry. -/
  use_cached_response : Bool
deriving DecidableEq, Repr

namespace CacheState

/-- `HealthCheckCacheManager::onTimer`: clears `use_cached_response_`
(the timer re-arm is a scheduler effect outside the cache state). -/
def onTimer (c : CacheState) : CacheState :=
  { c with use_cached_response := false }

/-- The constructor's effect on cache state: nothing stored yet, and
`onTimer()` is invoked once so the window starts expired. -/
def construct : CacheState :=
  onTimer { cachedStatus := 0, cachedDegraded := false,
            hasVerdict := false, use_cached_response := false }

/-- Modelled from the spec: `setCachedVerdict(status, degraded)` (called
`setCachedResponse` at the call site in health_check.cc) "stores the given
verdict as the new cached value" and, per the documented design intent,
"also mark[s] the verdict usable until the next timer expiry". -/
def setCachedResponse (_ : CacheState) (status : StatusCode)
    (degraded : Bool) : CacheState :=
  { cachedStatus := status, cachedDegraded := degraded,
    hasVerdict := true, use_cached_response := true }

/-- Modelled from the spec: `getCachedVerdict()` (called
`getCachedResponse` at the call site in health_check.cc) "returns the last
stored verdict regardless of freshness". -/
def getCachedResponse (c : CacheState) : StatusCode × Bool :=
  (c.cachedStatus, c.cachedDegraded)

/-- Modelled from the spec: the "should use cache" predicate
`useCachedResponse()` — "freshness AND a prior verdict exists". -/
def useCachedResponse (c : CacheState) : Bool :=
  c.use_cached_response && c.hasVerdict

end CacheState

/-! ## Filter configuration, context and per-request state -/

/-- Immutable filter configuration relevant to the per-request logic.
The cache, when configured, is carried separately as an
`Option CacheState` so its mutation can be threaded explicitly. -/
structure FilterConfig where
  /-- `pass_through_mode_`. -/
  pass_through_mode : Bool
  /-- `cluster_min_healthy_percentages_`: `none` models a null pointer,
  `some` a configured (possibly empty) ordered sequence. -/
  cluster_min_healthy_percentages : Option (List ClusterMinHealthyPercentage)
deriving Repr

/-- Read-only server context injected into the filter: the process-wide
forced-failure flag (`context_.healthCheckFailed()`), the cluster registry
(`context_.clusterManager()`), and the local node's owning cluster name
(`context_.localInfo().clusterName()`). -/
structure ServerContext where
  healthCheckFailed : Bool
  clusterManager : ClusterManager
  localClusterName : String

/-- Per-request mutable filter state: `health_check_request_` and
`handling_`, both initialized to false at request start. -/
structure FilterState where
  health_check_request : Bool
  handling : Bool
deriving DecidableEq, Repr

/-- The initial per-request state. -/
def FilterState.init : FilterState :=
  { health_check_request := false, handling := false }

inductive FilterHeadersStatus
  | Continue
  | StopIteration
deriving DecidableEq, Repr

inductive FilterDataStatus
  | Continue
  | StopIterationNoBuffer
deriving DecidableEq, Repr

inductive FilterTrailersStatus
  | Continue
  | StopIteration
deriving DecidableEq, Repr

/-! ## Response headers

The mutable response header map, restricted to the fields this filter
reads or writes: the `:status` pseudo-header, the `x-envoy-degraded`
marker, the `x-envoy-upstream-healthchecked-cluster` header and the
`x-envoy-immediate-health-check-fail` header. -/

structure RespHeaders where
  status : StatusCode
  envoyDegraded : Bool
  upstreamHealthCheckedCluster : Option String
  immediateHealthCheckFail : Bool
deriving DecidableEq, Repr

/-! ## `HealthCheckFilter::onComplete` (health_check.cc lines 97-158) -/

/-- Result of `onComplete`: the synthesized local reply (status plus the
degraded marker header added by the `sendLocalReply` modifier) and whether
the `FailedLocalHealthCheck` response flag was set on stream info. -/
structure CompleteResult where
  status : StatusCode
  degraded : Bool
  failedLocalHealthCheckFlag : Bool
deriving DecidableEq, Repr

/-- `HealthCheckFilter::onComplete`, minus the `ASSERT(handling_)` guard
(modelled separately as `onCompleteAssertPasses`): computes the final
status and degraded flag, sets the `FailedLocalHealthCheck` response flag
on the forced-failure path and whenever the final status is not 2xx, and
sends the local reply. -/
def onComplete (cfg : FilterConfig) (ctx : ServerContext)
    (cache : Option CacheState) : CompleteResult :=
  if ctx.healthCheckFailed then
    { status := 503, degraded := false, failedLocalHealthCheckFlag := true }
  else
    let sd : StatusCode × Bool :=
      match cache with
      | some c => c.getCachedResponse
      | none =>
        match cfg.cluster_min_healthy_percentages with
        | some items =>
          if items.isEmpty then (200, false)
          else (evaluateClusters ctx.clusterManager items, false)
        | none => (200, false)
    { status := sd.1, degraded := sd.2,
      failedLocalHealthCheckFlag := !is2xx sd.1 }

/-- The `ASSERT(handling_)` at the top of `onComplete`: its predicate is
exactly the `handling_` flag of the current filter state. -/
def onCompleteAssertPasses (s : FilterState) : Bool :=
  s.handling

/-- The response headers synthesized by `sendLocalReply(final_status, "",
modifier, ...)`: empty body, the resolved status, and the degraded marker
header exactly when `degraded` is true. -/
def localReplyHeaders (r : CompleteResult) : RespHeaders :=
  { status := r.status, envoyDegraded := r.degraded,
    upstreamHealthCheckedCluster := none, immediateHealthCheckFail := false }

/-! ## Decode hooks (health_check.cc lines 35-78)

Each hook returns the updated per-request state, its filter status, and
the number of `onComplete()` invocations it performed (0 or 1).  The
request header/body/trailer payloads are passed through as an opaque
value to express that the hooks never modify them. -/

/-- The `Matched → Handling` condition of `decodeHeaders` (lines 49-50):
`!pass_through_mode_ || context_.healthCheckFailed() ||
(cache_manager_ && cache_manager_->useCachedResponse())`. -/
def handlingCondition (cfg : FilterConfig) (ctx : ServerContext)
    (cache : Option CacheState) : Bool :=
  !cfg.pass_through_mode || ctx.healthCheckFailed ||
    (match cache with
     | some c => c.useCachedResponse
     | none => false)

/-- Result of a `decodeHeaders` call: the (untouched) request headers,
the updated per-request state, the returned filter status, and the number
of `onComplete()` invocations performed by the call (0 or 1). -/
structure DecodeHeadersResult (α : Type) where
  headers : α
  state : FilterState
  status : FilterHeadersStatus
  completions : Nat

/-- `HealthCheckFilter::decodeHeaders`.  `matched` is the result of the
external `HeaderUtility::matchHeaders` predicate on `headers`; the
request headers themselves are returned untouched. -/
def decodeHeaders {α : Type} (cfg : FilterConfig) (ctx : ServerContext)
    (cache : Option CacheState) (headers : α) (matched : Bool)
    (end_stream : Bool) (s : FilterState) : DecodeHeadersResult α :=
  let s :=
    if matched then
      let s := { s with health_check_request := true }
      if handlingCondition cfg ctx cache then { s with handling := true }
      else s
    else s
  { headers := headers, state := s,
    status := if s.handling then FilterHeadersStatus.StopIteration
              else FilterHeadersStatus.Continue,
    completions := if end_stream && s.handling then 1 else 0 }

/-- Result of a `decodeData` call. -/
structure DecodeDataResult (α : Type) where
  data : α
  state : FilterState
  status : FilterDataStatus
  completions : Nat

/-- `HealthCheckFilter::decodeData`: the body chunk is neither inspected
nor modified; completion fires at end of stream when handling. -/
def decodeData {α : Type} (data : α) (end_stream : Bool)
    (s : FilterState) : DecodeDataResult α :=
  { data := data, state := s,
    status := if s.handling then FilterDataStatus.StopIterationNoBuffer
              else FilterDataStatus.Continue,
    completions := if end_stream && s.handling then 1 else 0 }

/-- Result of a `decodeTrailers` call. -/
structure DecodeTrailersResult (α : Type) where
  trailers : α
  state : FilterState
  status : FilterTrailersStatus
  completions : Nat

/-- `HealthCheckFilter::decodeTrailers`: trailers are neither inspected
nor modified; completion fires unconditionally when handling. -/
def decodeTrailers {α : Type} (trailers : α) (s : FilterState) :
    DecodeTrailersResult α :=
  { trailers := trailers, state := s,
    status := if s.handling then FilterTrailersStatus.StopIteration
              else FilterTrailersStatus.Continue,
    completions := if s.handling then 1 else 0 }

/-! ## `HealthCheckFilter::encodeHeaders` (health_check.cc lines 80-95) -/

/-- Result of an `encodeHeaders` call: the possibly-updated cache state,
the mutated response headers, and the returned filter status. -/
structure EncodeHeadersResult where
  cache : Option CacheState
  headers : RespHeaders
  status : FilterHeadersStatus

/-- `HealthCheckFilter::encodeHeaders`: on a recognized health-check
request, stores the outgoing status and the presence of the degraded
header into the cache (when configured) and attaches the
healthchecked-cluster header; otherwise, when the forced-failure flag is
set, attaches the immediate-health-check-fail header.  Always returns
`Continue`. -/
def encodeHeaders (ctx : ServerContext) (s : FilterState)
    (cache : Option CacheState) (headers : RespHeaders) :
    EncodeHeadersResult :=
  if s.health_check_request then
    { cache :=
        match cache with
        | some c =>
          some (c.setCachedResponse headers.status headers.envoyDegraded)
        | none => none,
      headers :=
        { headers with
          upstreamHealthCheckedCluster := some ctx.localClusterName },
      status := FilterHeadersStatus.Continue }
  else if ctx.healthCheckFailed then
    { cache := cache,
      headers := { headers with immediateHealthCheckFail := true },
      status := FilterHeadersStatus.Continue }
  else
    { cache := cache, headers := headers,
      status := FilterHeadersStatus.Continue }

/-! ## Per-request driver

The host pipeline calls the hooks in the fixed order headers → zero or
more body chunks → optional trailers, with exactly one end-of-request
event: headers carrying the end-stream flag, or a final body chunk
carrying it, or the trailers. -/

/-- Shape of a well-formed request as delivered by the host pipeline. -/
inductive RequestShape
  /-- Headers arrive with the end-of-request flag; no body, no trailers. -/
  | headersOnly
  /-- `chunks` body chunks without the end-stream flag, then a final
  chunk carrying it; no trailers. -/
  | withBody (chunks : Nat)
  /-- `chunks` body chunks without the end-stream flag, then trailers. -/
  | withTrailers (chunks : Nat)
deriving DecidableEq, Repr

/-- Runs the decode hooks of one request from the initial per-request
state, returning the final filter state and the list of per-hook
completion counts, in hook-call order. -/
def runRequest (cfg : FilterConfig) (ctx : ServerContext)
    (cache : Option CacheState) (matched : Bool) (shape : RequestShape) :
    FilterState × List Nat :=
  match shape with
  | RequestShape.headersOnly =>
    let r := decodeHeaders cfg ctx cache () matched true FilterState.init
    (r.state, [r.completions])
  | RequestShape.withBody n =>
    let r := decodeHeaders cfg ctx cache () matched false FilterState.init
    let mid := List.replicate n (decodeData () false r.state).completions
    let last := (decodeData () true r.state).completions
    (r.state, r.completions :: mid ++ [last])
  | RequestShape.withTrailers n =>
    let r := decodeHeaders cfg ctx cache () matched false FilterState.init
    let mid := List.replicate n (decodeData () false r.state).completions
    let last := (decodeTrailers () r.state).completions
    (r.state, r.completions :: mid ++ [last])

/-! ## Whole-probe processing (decode, verdict or upstream, encode)

A matched headers-only probe either transitions to handling — in which
case `onComplete` synthesizes the local reply — or passes through, in
which case the real upstream's response headers are what reaches
`encodeHeaders`.  Either way `encodeHeaders` runs on the response that is
about to be sent. -/

/-- Outcome of one matched probe. -/
structure ProbeResult where
  handledLocally : Bool
  response : RespHeaders
  cacheAfter : Option CacheState

/-- Processes one matched, headers-only probe end to end: decode headers
(with `matched = true`, `end_stream = true`), then the synthesized local
reply when handling (else the given upstream response), then the encode
hook on that response. -/
def processProbe (cfg : FilterConfig) (ctx : ServerContext)
    (cache : Option CacheState) (upstream : RespHeaders) : ProbeResult :=
  let d := decodeHeaders cfg ctx cache () true true FilterState.init
  let resp :=
    if d.state.handling then localReplyHeaders (onComplete cfg ctx cache)
    else upstream
  let e := encodeHeaders ctx d.state cache resp
  { handledLocally := d.state.handling, response := e.headers,
    cacheAfter := e.cache }

/-- Processes a sequence of matched probes in order, threading the cache
state; each list element is the upstream response that probe would
receive were it passed through. -/
def processProbes (cfg : FilterConfig) (ctx : ServerContext) :
    Option CacheState → List RespHeaders →
    List ProbeResult × Option CacheState
  | cache, [] => ([], cache)
  | cache, u :: rest =>
    let r := processProbe cfg ctx cache u
    let (rs, final) := processProbes cfg ctx r.cacheAfter rest
    (r :: rs, final)

/-- A re-entrancy-instrumented run of the completion routine: the
`ASSERT(handling_)` guard either fires (`aborted = true`, nothing else
happens) or the routine runs.  `onComplete` writes no field of
`FilterState`, so the state after a run is the same `s`. -/
structure OnCompleteRun where
  result : Option CompleteResult
  aborted : Bool

/-- Runs `onComplete` behind its `ASSERT(handling_)` guard. -/
def runOnComplete (cfg : FilterConfig) (ctx : ServerContext)
    (cache : Option CacheState) (s : FilterState) : OnCompleteRun :=
  if onCompleteAssertPasses s then
    { result := some (onComplete cfg ctx cache), aborted := false }
  else
    { result := none, aborted := true }

/-- Two successive invocations of the completion routine against the same
request: `onComplete` assigns no field of `FilterState` (health_check.cc
lines 97-158 write only locals and callback-side effects), so the second,
re-entrant invocation observes exactly the state the first one did. -/
def runOnCompleteTwice (cfg : FilterConfig) (ctx : ServerContext)
    (cache : Option CacheState) (s : FilterState) :
    OnCompleteRun × OnCompleteRun :=
  (runOnComplete cfg ctx cache s, runOnComplete cfg ctx cache s)

/-! ## Concrete fixtures used in witnesses and counterexamples -/

/-- A registry resolving only cluster `"c"`, with healthy=50, degraded=10,
total=100 (the spec's concrete aggregation example). -/
def cmC : ClusterManager := fun name =>
  if name = "c" then
    some { membership_total := 100, membership_healthy := 50,
           membership_degraded := 10 }
  else none

/-- A registry resolving no cluster at all. -/
def cmEmpty : ClusterManager := fun _ => none

/-- Threshold: cluster `"c"` must be at least 50% healthy. -/
def thr50 : ClusterMinHealthyPercentage :=
  { cluster_name := "c", min_healthy_percentage := 50 }

/-- Threshold: cluster `"c"` must be at least 61% healthy. -/
def thr61 : ClusterMinHealthyPercentage :=
  { cluster_name := "c", min_healthy_percentage := 61 }

/-- Pass-through configuration with neither thresholds (nor, by callers
passing `none` separately, a cache). -/
def cfgPT : FilterConfig :=
  { pass_through_mode := true, cluster_min_healthy_percentages := none }

/-- Context with the forced-failure flag clear. -/
def ctxOK : ServerContext :=
  { healthCheckFailed := false, clusterManager := cmEmpty,
    localClusterName := "local_cluster" }

/-- Context with the forced-failure flag set. -/
def ctxFail : ServerContext :=
  { healthCheckFailed := true, clusterManager := cmEmpty,
    localClusterName := "local_cluster" }

/-- An upstream response with a status this core never synthesizes on its
own: 404, no markers. -/
def resp404 : RespHeaders :=
  { status := 404, envoyDegraded := false,
    upstreamHealthCheckedCluster := none, immediateHealthCheckFail := false }

/-- A plain 200 upstream response with no markers. -/
def resp200 : RespHeaders :=
  { status := 200, envoyDegraded := false,
    upstreamHealthCheckedCluster := none, immediateHealthCheckFail := false }

/-- An upstream response carrying the degraded marker. -/
def resp503deg : RespHeaders :=
  { status := 503, envoyDegraded := true,
    upstreamHealthCheckedCluster := none, immediateHealthCheckFail := false }

/-- A per-request state in which the filter owns the response. -/
def sHandling : FilterState :=
  { health_check_request := true, handling := true }

/-- A per-request state of a matched probe left in pass-through. -/
def sPassThrough : FilterState :=
  { health_check_request := true, handling := false }

/-- Configuration with pass-through mode off and no thresholds. -/
def cfgNoPT : FilterConfig :=
  { pass_through_mode := false, cluster_min_healthy_percentages := none }

/-- The cache state after a first pass-through probe whose upstream
answered 404: the 404 is stored as the cached verdict. -/
def cacheAfter404 : Option CacheState :=
  (processProbe cfgPT ctxOK (some CacheState.construct) resp404).cacheAfter

/-! # Helper lemmas -/

/-- The loop's strict-less failure test is the complement of the spec's
inclusive percentage pass, over exact rationals, for positive total. -/
theorem spec_pass_iff_not_lt (x T p : ℚ) (hT : 0 < T) :
    (x / T * 100 ≥ p) ↔ ¬(x < T * p / 100) := by
  rw [not_lt, ge_iff_le, div_mul_eq_mul_div, le_div_iff₀ hT,
    div_le_iff₀ (show (0:ℚ) < 100 by norm_num)]
  constructor <;> intro h <;> linarith

/-- The evaluation loop returns 200 exactly when every threshold passes
in the sense of the reference definition. -/
theorem evaluateClusters_eq_200_iff (cm : ClusterManager)
    (items : List ClusterMinHealthyPercentage) :
    evaluateClusters cm items = 200 ↔
      ∀ item ∈ items, thresholdPassesSpec cm item := by
  induction items with
  | nil => simp [evaluateClusters]
  | cons item rest ih =>
    simp only [evaluateClusters, List.mem_cons]
    cases hcm : cm item.cluster_name with
    | none =>
      simp only [hcm]
      constructor
      · intro h; cases h
      · intro h
        have := h item (Or.inl rfl)
        simp [thresholdPassesSpec, hcm] at this
    | some stats =>
      simp only [hcm]
      by_cases h0 : stats.membership_total = 0
      · by_cases hp : item.min_healthy_percentage = 0
        · simp only [h0, if_true, hp, if_true, ih]
          constructor
          · intro h x hx
            rcases hx with hx | hx
            · subst hx; simp [thresholdPassesSpec, hcm, h0, hp]
            · exact h x hx
          · intro h x hx; exact h x (Or.inr hx)
        · simp only [h0, if_true, hp, if_false]
          constructor
          · intro h; cases h
          · intro h
            have := h item (Or.inl rfl)
            simp [thresholdPassesSpec, hcm, h0, hp] at this
      · have hT : (0:ℚ) < stats.membership_total := by
          exact_mod_cast Nat.pos_of_ne_zero h0
        by_cases hlt : ((stats.membership_healthy : ℚ) +
            stats.membership_degraded) <
            (stats.membership_total : ℚ) * item.min_healthy_percentage / 100
        · simp only [h0, if_false, hlt, if_true]
          constructor
          · intro h; cases h
          · intro h
            have hpass := h item (Or.inl rfl)
            simp only [thresholdPassesSpec, hcm, h0, if_false] at hpass
            exact absurd hlt ((spec_pass_iff_not_lt _ _ _ hT).mp hpass)
        · simp only [h0, if_false, hlt, if_false, ih]
          constructor
          · intro h x hx
            rcases hx with hx | hx
            · subst hx
              simp only [thresholdPassesSpec, hcm, h0, if_false]
              exact (spec_pass_iff_not_lt _ _ _ hT).mpr hlt
            · exact h x hx
          · intro h x hx; exact h x (Or.inr hx)

/-- The evaluation loop only ever returns 200 or 503. -/
theorem evaluateClusters_eq_200_or_503 (cm : ClusterManager)
    (items : List ClusterMinHealthyPercentage) :
    evaluateClusters cm items = 200 ∨ evaluateClusters cm items = 503 := by
  induction items with
  | nil => left; rfl
  | cons item rest ih =>
    simp only [evaluateClusters]
    cases cm item.cluster_name with
    | none => right; rfl
    | some stats =>
      by_cases h0 : stats.membership_total = 0
      · by_cases hp : item.min_healthy_percentage = 0
        · simpa [h0, hp] using ih
        · simp [h0, hp]
      · by_cases hlt : ((stats.membership_healthy : ℚ) +
            stats.membership_degraded) <
            (stats.membership_total : ℚ) * item.min_healthy_percentage / 100
        · simp [h0, hlt]
        · simpa [h0, hlt] using ih

/-- The `Matched → Handling` condition holds exactly when pass-through is
off, or the forced-failure flag is set, or a configured cache says to use
the cached response. -/
theorem handlingCondition_iff (cfg : FilterConfig) (ctx : ServerContext)
    (cache : Option CacheState) :
    handlingCondition cfg ctx cache = true ↔
      cfg.pass_through_mode = false ∨ ctx.healthCheckFailed = true ∨
        ∃ c, cache = some c ∧ c.useCachedResponse = true := by
  unfold handlingCondition
  cases cache with
  | none => simp [Bool.or_eq_true, Bool.not_eq_true']
  | some c =>
    simp only [Bool.or_eq_true, Bool.not_eq_true', Option.some.injEq,
      exists_eq_left']
    exact or_assoc

/-- On a matched probe, `decodeHeaders` from the initial state marks the
request and sets `handling_` to exactly the handling condition. -/
theorem decodeHeaders_matched_state (cfg : FilterConfig)
    (ctx : ServerContext) (cache : Option CacheState) (es : Bool) :
    (decodeHeaders cfg ctx cache () true es FilterState.init).state =
      { health_check_request := true,
        handling := handlingCondition cfg ctx cache } := by
  cases h : handlingCondition cfg ctx cache <;>
    simp [decodeHeaders, FilterState.init, h]

/-- A probe against a cache holding a usable verdict `(st, dg)` is
answered locally with exactly that verdict (plus the cluster header
`encodeHeaders` attaches), and re-stores the same verdict. -/
theorem processProbe_cached (cfg : FilterConfig) (ctx : ServerContext)
    (hf : ctx.healthCheckFailed = false) (st : StatusCode) (dg : Bool)
    (u : RespHeaders) :
    processProbe cfg ctx (some ⟨st, dg, true, true⟩) u =
      { handledLocally := true,
        response :=
          { status := st, envoyDegraded := dg,
            upstreamHealthCheckedCluster := some ctx.localClusterName,
            immediateHealthCheckFail := false },
        cacheAfter := some ⟨st, dg, true, true⟩ } := by
  simp [processProbe, decodeHeaders, handlingCondition,
    CacheState.useCachedResponse, hf, onComplete,
    CacheState.getCachedResponse, localReplyHeaders, encodeHeaders,
    CacheState.setCachedResponse, FilterState.init]

/-- A pass-through probe against a stale cache is not handled locally;
its upstream response (plus the cluster header) is what goes out, and its
status and degraded marker become the new cached verdict. -/
theorem processProbe_stale (cfg : FilterConfig) (ctx : ServerContext)
    (hpt : cfg.pass_through_mode = true)
    (hf : ctx.healthCheckFailed = false) (c : CacheState)
    (hstale : c.useCachedResponse = false) (u : RespHeaders) :
    processProbe cfg ctx (some c) u =
      { handledLocally := false,
        response :=
          { u with
            upstreamHealthCheckedCluster := some ctx.localClusterName },
        cacheAfter := some ⟨u.status, u.envoyDegraded, true, true⟩ } := by
  simp [processProbe, decodeHeaders, handlingCondition, hpt, hf, hstale,
    encodeHeaders, FilterState.init, CacheState.setCachedResponse]

/-- Every probe of a window that starts from a cache holding the usable
verdict `(st, dg)` is answered locally with that verdict, and the cache
still holds the same usable verdict afterwards. -/
theorem processProbes_cached (cfg : FilterConfig) (ctx : ServerContext)
    (hf : ctx.healthCheckFailed = false) (st : StatusCode) (dg : Bool)
    (us : List RespHeaders) :
    (∀ r ∈ (processProbes cfg ctx (some ⟨st, dg, true, true⟩) us).1,
      r.handledLocally = true ∧ r.response.status = st ∧
        r.response.envoyDegraded = dg) ∧
    (processProbes cfg ctx (some ⟨st, dg, true, true⟩) us).2 =
      some ⟨st, dg, true, true⟩ := by
  induction us with
  | nil => exact ⟨fun r hr => absurd hr (List.not_mem_nil r), rfl⟩
  | cons u rest ih =>
    simp only [processProbes, processProbe_cached cfg ctx hf st dg u]
    constructor
    · intro r hr
      rcases List.mem_cons.mp hr with h | h
      · subst h; exact ⟨rfl, rfl, rfl⟩
      · exact ih.1 r h
    · exact ih.2

/-- Appending one more copy on the right of a replicated list. -/
theorem replicate_append_singleton (n a : Nat) :
    List.replicate n a ++ [a] = a :: List.replicate n a := by
  rw [← List.replicate_succ', List.replicate_succ]

/-- A `decodeHeaders` call performs a completion exactly when the stream
ended at headers and the resulting state is handling. -/
theorem decodeHeaders_completions_eq {α : Type} (cfg : FilterConfig)
    (ctx : ServerContext) (cache : Option CacheState) (hd : α)
    (m es : Bool) (s : FilterState) :
    (decodeHeaders cfg ctx cache hd m es s).completions =
      if es && (decodeHeaders cfg ctx cache hd m es s).state.handling
      then 1 else 0 := rfl

/-! # Claim theorems -/

/-- C1: For every completed (Handling) request the verdict follows the
priority order: forced failure → 503, degraded false, response flag set;
else a configured cache → the cached (status, degraded) pair verbatim;
else configured non-empty cluster thresholds → the evaluator result with
degraded false; else 200 with degraded false. -/
theorem claim_C1_verdict_priority (cfg : FilterConfig)
    (ctx : ServerContext) (cache : Option CacheState) :
    (ctx.healthCheckFailed = true →
      onComplete cfg ctx cache =
        { status := 503, degraded := false,
          failedLocalHealthCheckFlag := true }) ∧
    (ctx.healthCheckFailed = false → ∀ c, cache = some c →
      ((onComplete cfg ctx cache).status,
        (onComplete cfg ctx cache).degraded) = c.getCachedResponse) ∧
    (ctx.healthCheckFailed = false → cache = none →
      ∀ items, cfg.cluster_min_healthy_percentages = some items →
        items ≠ [] →
        (onComplete cfg ctx cache).status =
          evaluateClusters ctx.clusterManager items ∧
        (onComplete cfg ctx cache).degraded = false) ∧
    (ctx.healthCheckFailed = false → cache = none →
      (cfg.cluster_min_healthy_percentages = none ∨
        cfg.cluster_min_healthy_percentages = some []) →
      (onComplete cfg ctx cache).status = 200 ∧
      (onComplete cfg ctx cache).degraded = false) := by
  refine ⟨?_, ?_, ?_, ?_⟩
  · intro hf; simp [onComplete, hf]
  · intro hf c hc; subst hc
    simp [onComplete, hf, CacheState.getCachedResponse]
  · intro hf hc items hitems hne; subst hc
    cases items with
    | nil => exact absurd rfl hne
    | cons a t => simp [onComplete, hf, hitems]
  · intro hf hc hopt; subst hc
    rcases hopt with h | h <;> simp [onComplete, hf, h]

/-- Witness for C1: forced failure yields the 503 verdict, and with no
cache, no thresholds and no forced failure the verdict is 200. -/
theorem claim_C1_witness :
    (onComplete cfgPT ctxFail none =
      { status := 503, degraded := false,
        failedLocalHealthCheckFlag := true }) ∧
    ((onComplete cfgPT ctxOK none).status = 200 ∧
      (onComplete cfgPT ctxOK none).degraded = false) :=
  ⟨(claim_C1_verdict_priority cfgPT ctxFail none).1 rfl,
    (claim_C1_verdict_priority cfgPT ctxOK none).2.2.2 rfl rfl (Or.inl rfl)⟩

/-- C3: A matched probe transitions to Handling iff pass-through mode is
off, or the forced-failure flag is set, or a configured cache's
should-use-cache predicate is true; otherwise the request stays in
pass-through and `decodeHeaders` returns Continue so it is forwarded
upstream (the request headers leave the hook untouched). -/
theorem claim_C3_handling_transition (cfg : FilterConfig)
    (ctx : ServerContext) (cache : Option CacheState) (es : Bool) :
    ((decodeHeaders cfg ctx cache () true es
        FilterState.init).state.handling = true ↔
      cfg.pass_through_mode = false ∨ ctx.healthCheckFailed = true ∨
        ∃ c, cache = some c ∧ c.useCachedResponse = true) ∧
    ((decodeHeaders cfg ctx cache () true es
        FilterState.init).state.health_check_request = true) ∧
    ((decodeHeaders cfg ctx cache () true es
        FilterState.init).state.handling = false →
      (decodeHeaders cfg ctx cache () true es FilterState.init).status =
        FilterHeadersStatus.Continue) := by
  have hst := decodeHeaders_matched_state cfg ctx cache es
  refine ⟨?_, ?_, ?_⟩
  · rw [hst]
    exact handlingCondition_iff cfg ctx cache
  · rw [hst]
  · intro hfalse
    simp only [decodeHeaders]
    have : handlingCondition cfg ctx cache = false := by
      rw [hst] at hfalse; exact hfalse
    simp [this, FilterState.init]

/-- Witness for C3: with pass-through on, no forced failure and no cache,
a matched probe stays in pass-through and returns Continue. -/
theorem claim_C3_witness :
    (decodeHeaders cfgPT ctxOK none () true true
      FilterState.init).state.handling = false ∧
    (decodeHeaders cfgPT ctxOK none () true true
      FilterState.init).status = FilterHeadersStatus.Continue := by
  have h := claim_C3_handling_transition cfgPT ctxOK none true
  have hfalse : (decodeHeaders cfgPT ctxOK none () true true
      FilterState.init).state.handling = false := by
    cases hh : (decodeHeaders cfgPT ctxOK none () true true
        FilterState.init).state.handling with
    | false => rfl
    | true =>
      rcases h.1.mp hh with hpt | hfl | ⟨c, hc, _⟩
      · exact absurd hpt (by decide)
      · exact absurd hfl (by decide)
      · exact Option.noConfusion hc
  exact ⟨hfalse, h.2.2 hfalse⟩

/-- C7: On encode, a recognized probe stores (status, degraded-header
presence) into the configured cache and gains the healthchecked-cluster
header; a non-probe response under forced failure gains the
immediate-failure marker with its status code untouched. -/
theorem claim_C7_encode_path (ctx : ServerContext) (s : FilterState)
    (cache : Option CacheState) (h : RespHeaders) :
    (s.health_check_request = true →
      (∀ c, cache = some c →
        (encodeHeaders ctx s cache h).cache =
          some (c.setCachedResponse h.status h.envoyDegraded)) ∧
      (cache = none → (encodeHeaders ctx s cache h).cache = none) ∧
      (encodeHeaders ctx s cache h).headers =
        { h with upstreamHealthCheckedCluster := some ctx.localClusterName }) ∧
    (s.health_check_request = false → ctx.healthCheckFailed = true →
      (encodeHeaders ctx s cache h).headers =
        { h with immediateHealthCheckFail := true } ∧
      (encodeHeaders ctx s cache h).headers.status = h.status ∧
      (encodeHeaders ctx s cache h).cache = cache) := by
  constructor
  · intro hs
    refine ⟨?_, ?_, ?_⟩
    · intro c hc; subst hc; simp [encodeHeaders, hs]
    · intro hc; subst hc; simp [encodeHeaders, hs]
    · simp [encodeHeaders, hs]
  · intro hs hf
    simp [encodeHeaders, hs, hf]

/-- Witness for C7: a handled probe's 503+degraded reply is cached and
gains the cluster header; a non-probe 200 under forced failure gains the
immediate-failure marker and keeps status 200. -/
theorem claim_C7_witness :
    (encodeHeaders ctxOK sHandling (some CacheState.construct)
        resp503deg).cache =
      some (CacheState.construct.setCachedResponse resp503deg.status
        resp503deg.envoyDegraded) ∧
    (encodeHeaders ctxOK sHandling (some CacheState.construct)
        resp503deg).headers =
      { resp503deg with upstreamHealthCheckedCluster := some ctxOK.localClusterName } ∧
    (encodeHeaders ctxFail FilterState.init none resp200).headers =
      { resp200 with immediateHealthCheckFail := true } ∧
    (encodeHeaders ctxFail FilterState.init none resp200).headers.status =
      resp200.status :=
  ⟨((claim_C7_encode_path ctxOK sHandling (some CacheState.construct)
      resp503deg).1 rfl).1 CacheState.construct rfl,
    ((claim_C7_encode_path ctxOK sHandling (some CacheState.construct)
      resp503deg).1 rfl).2.2,
    ((claim_C7_encode_path ctxFail FilterState.init none resp200).2
      rfl rfl).1,
    ((claim_C7_encode_path ctxFail FilterState.init none resp200).2
      rfl rfl).2.1⟩

/-- C6 counterexample: after a first completed run of the completion
routine (which leaves `handling_` set — `onComplete` assigns no filter
state field), a second, re-entrant invocation passes `ASSERT(handling_)`
and runs again instead of aborting: the claim that re-entrant invocation
fails fast with a loud abort is false at this input. -/
theorem claim_C6_counterexample :
    (runOnCompleteTwice cfgPT ctxOK none sHandling).1.aborted = false ∧
    (runOnCompleteTwice cfgPT ctxOK none sHandling).2.aborted = false ∧
    (runOnCompleteTwice cfgPT ctxOK none sHandling).2.result =
      some (onComplete cfgPT ctxOK none) := by
  refine ⟨rfl, rfl, rfl⟩

/-- C6 (amended): the internal consistency check at the head of the
completion routine asserts only that the filter is in the Handling state;
it aborts exactly when `handling_` is false, so a re-entrant second
invocation — which sees `handling_` still true — passes the check and
does not abort. -/
theorem claim_C6_assert_checks_handling_only (cfg : FilterConfig)
    (ctx : ServerContext) (cache : Option CacheState) (s : FilterState) :
    (runOnComplete cfg ctx cache s).aborted = !s.handling ∧
    (runOnCompleteTwice cfg ctx cache s).2.aborted = !s.handling := by
  cases hs : s.handling <;>
    simp [runOnComplete, runOnCompleteTwice, onCompleteAssertPasses, hs]

/-- C4 counterexample: with pass-through mode, no forced failure and a
cache, a first probe passes through to an upstream answering 404, which
`encodeHeaders` stores as the cached verdict; the next probe is answered
locally and its synthesized response carries status 404 — neither 200 nor
503 — so the claim that no other status code is ever produced, including
on the cache-served path, is false at this input. -/
theorem claim_C4_counterexample :
    (processProbe cfgPT ctxOK (some CacheState.construct)
      resp404).handledLocally = false ∧
    (processProbe cfgPT ctxOK cacheAfter404 resp200).handledLocally =
      true ∧
    (processProbe cfgPT ctxOK cacheAfter404 resp200).response.status =
      404 ∧
    ¬((processProbe cfgPT ctxOK cacheAfter404 resp200).response.status =
        200 ∨
      (processProbe cfgPT ctxOK cacheAfter404 resp200).response.status =
        503) := by
  refine ⟨rfl, rfl, rfl, ?_⟩
  have h404 : (processProbe cfgPT ctxOK cacheAfter404
      resp200).response.status = 404 := rfl
  rw [h404]
  decide

/-- C4 (amended): every status carried by a synthesized local response is
200 or 503, except on the cache-served path, where the status is the
cached status verbatim — which may be any code previously stored into the
cache on encode, such as an upstream response status observed in
pass-through mode. -/
theorem claim_C4_status_codes (cfg : FilterConfig) (ctx : ServerContext)
    (cache : Option CacheState) :
    (cache = none → (onComplete cfg ctx cache).status = 200 ∨
      (onComplete cfg ctx cache).status = 503) ∧
    (ctx.healthCheckFailed = true →
      (onComplete cfg ctx cache).status = 503) ∧
    (∀ c, cache = some c → ctx.healthCheckFailed = false →
      (onComplete cfg ctx cache).status = c.cachedStatus) := by
  refine ⟨?_, ?_, ?_⟩
  · intro hc; subst hc
    cases hf : ctx.healthCheckFailed with
    | true => right; simp [onComplete, hf]
    | false =>
      cases hm : cfg.cluster_min_healthy_percentages with
      | none => left; simp [onComplete, hf, hm]
      | some items =>
        cases items with
        | nil => left; simp [onComplete, hf, hm]
        | cons a t =>
          simpa [onComplete, hf, hm] using
            evaluateClusters_eq_200_or_503 ctx.clusterManager (a :: t)
  · intro hf; simp [onComplete, hf]
  · intro c hc hf; subst hc
    simp [onComplete, hf, CacheState.getCachedResponse]

/-- Witness for C4 (amended): with no cache the default verdict is 200 or
503, and forced failure yields 503. -/
theorem claim_C4_witness :
    ((onComplete cfgPT ctxOK none).status = 200 ∨
      (onComplete cfgPT ctxOK none).status = 503) ∧
    (onComplete cfgPT ctxFail none).status = 503 :=
  ⟨(claim_C4_status_codes cfgPT ctxOK none).1 rfl,
    (claim_C4_status_codes cfgPT ctxFail none).2.1 rfl⟩

/-- C8 counterexample: a request whose headers do not match the predicate,
processed while the forced-failure flag is set: the decode path indeed
leaves the filter untouched, but the response does not pass through
unchanged — `encodeHeaders` adds the immediate-failure marker header — so
the claim that request and response pass through unchanged is false at
this input. -/
theorem claim_C8_counterexample :
    (decodeHeaders cfgPT ctxFail none () false true
      FilterState.init).state.health_check_request = false ∧
    (encodeHeaders ctxFail FilterState.init none
      resp200).headers.immediateHealthCheckFail = true ∧
    resp200.immediateHealthCheckFail = false ∧
    (encodeHeaders ctxFail FilterState.init none resp200).headers ≠
      resp200 := by
  refine ⟨rfl, rfl, rfl, ?_⟩
  intro h
  exact Bool.noConfusion
    (congrArg RespHeaders.immediateHealthCheckFail h)

/-- C8 (amended): for every request whose headers do not match the
predicate, the filter never sets `isHealthCheckRequest` or `handling_`,
never invokes completion, every decode hook returns Continue with its
payload untouched, and on encode no cluster-identity or degraded header
is ever added — the response is returned unchanged apart from the
immediate-failure marker header, added exactly when the forced-failure
flag is set. -/
theorem claim_C8_non_matching_frame (α : Type) (reqH reqD reqT : α)
    (cfg : FilterConfig) (ctx : ServerContext) (cache : Option CacheState)
    (es es2 : Bool) (h : RespHeaders) :
    ((decodeHeaders cfg ctx cache reqH false es FilterState.init).headers =
      reqH) ∧
    ((decodeHeaders cfg ctx cache reqH false es FilterState.init).state =
      FilterState.init) ∧
    ((decodeHeaders cfg ctx cache reqH false es FilterState.init).status =
      FilterHeadersStatus.Continue) ∧
    ((decodeHeaders cfg ctx cache reqH false es
      FilterState.init).completions = 0) ∧
    ((decodeData reqD es2 FilterState.init).data = reqD) ∧
    ((decodeData reqD es2 FilterState.init).state = FilterState.init) ∧
    ((decodeData reqD es2 FilterState.init).status =
      FilterDataStatus.Continue) ∧
    ((decodeData reqD es2 FilterState.init).completions = 0) ∧
    ((decodeTrailers reqT FilterState.init).trailers = reqT) ∧
    ((decodeTrailers reqT FilterState.init).state = FilterState.init) ∧
    ((decodeTrailers reqT FilterState.init).status =
      FilterTrailersStatus.Continue) ∧
    ((decodeTrailers reqT FilterState.init).completions = 0) ∧
    ((encodeHeaders ctx FilterState.init cache h).cache = cache) ∧
    ((encodeHeaders ctx FilterState.init cache h).headers =
      (if ctx.healthCheckFailed then
        { h with immediateHealthCheckFail := true } else h)) ∧
    ((encodeHeaders ctx FilterState.init cache
      h).headers.upstreamHealthCheckedCluster =
        h.upstreamHealthCheckedCluster) ∧
    ((encodeHeaders ctx FilterState.init cache h).headers.envoyDegraded =
      h.envoyDegraded) := by
  cases hf : ctx.healthCheckFailed <;>
    simp [decodeHeaders, decodeData, decodeTrailers, encodeHeaders,
      FilterState.init, hf]

/-- C9: once a request is handling, the decode hooks together invoke the
completion routine exactly once, at the single end-of-request event —
the last hook call of any well-formed request shape (headers with
end-stream, final body chunk, or trailers) — with zero completions at
every earlier hook call; and with handling false no completion ever
occurs. -/
theorem claim_C9_single_completion (cfg : FilterConfig)
    (ctx : ServerContext) (cache : Option CacheState) (matched : Bool)
    (shape : RequestShape) :
    ((runRequest cfg ctx cache matched shape).1.handling = true →
      (runRequest cfg ctx cache matched shape).2 =
        List.replicate
          ((runRequest cfg ctx cache matched shape).2.length - 1) 0 ++
          [1]) ∧
    ((runRequest cfg ctx cache matched shape).1.handling = false →
      (runRequest cfg ctx cache matched shape).2 =
        List.replicate
          ((runRequest cfg ctx cache matched shape).2.length) 0) := by
  cases shape with
  | headersOnly =>
    constructor <;> intro hh <;>
      simp only [runRequest] at hh ⊢ <;>
      simp [decodeHeaders_completions_eq, hh, List.replicate_succ]
  | withBody n =>
    constructor <;> intro hh <;>
      simp only [runRequest] at hh ⊢ <;>
      simp [decodeHeaders_completions_eq, decodeData, hh,
        List.replicate_succ, replicate_append_singleton]
  | withTrailers n =>
    constructor <;> intro hh <;>
      simp only [runRequest] at hh ⊢ <;>
      simp [decodeHeaders_completions_eq, decodeData, decodeTrailers, hh,
        List.replicate_succ, replicate_append_singleton]

/-- Witness for C9: with pass-through off, a matched two-chunk body
request completes exactly once, at the final chunk. -/
theorem claim_C9_witness :
    (runRequest cfgNoPT ctxOK none true
      (RequestShape.withBody 2)).1.handling = true ∧
    (runRequest cfgNoPT ctxOK none true (RequestShape.withBody 2)).2 =
      List.replicate
        ((runRequest cfgNoPT ctxOK none true
          (RequestShape.withBody 2)).2.length - 1) 0 ++ [1] :=
  ⟨rfl,
    (claim_C9_single_completion cfgNoPT ctxOK none true
      (RequestShape.withBody 2)).1 rfl⟩

/-- C10: the body and trailer decode hooks never modify the filter's
interception state — after any `decodeData` or `decodeTrailers` call the
state is exactly what `decodeHeaders` left — and a matched probe that
entered pass-through at headers stays pass-through: both hooks return
Continue and never invoke completion while `handling_` is false. -/
theorem claim_C10_decode_state_frame (α : Type) (d t : α) (es : Bool)
    (s : FilterState) :
    ((decodeData d es s).state = s) ∧
    ((decodeTrailers t s).state = s) ∧
    (s.handling = false →
      (decodeData d es s).status = FilterDataStatus.Continue ∧
      (decodeTrailers t s).status = FilterTrailersStatus.Continue ∧
      (decodeData d es s).completions = 0 ∧
      (decodeTrailers t s).completions = 0) := by
  refine ⟨rfl, rfl, ?_⟩
  intro hh
  simp [decodeData, decodeTrailers, hh]

/-- C5: with pass-through on, no forced failure and a cache whose window
has expired, a first matched probe is not answered locally; its
pass-through response's (status, degraded) pair is stored by
`setCachedResponse`; every matched probe of the window that follows
(before the timer next fires) is answered locally with exactly that
stored verdict; and once the timer fires, the next matched probe is not
answered from cache. -/
theorem claim_C5_cache_window (cfg : FilterConfig) (ctx : ServerContext)
    (c0 : CacheState) (u : RespHeaders)
    (hpt : cfg.pass_through_mode = true)
    (hf : ctx.healthCheckFailed = false)
    (hstale : c0.useCachedResponse = false) :
    ((processProbe cfg ctx (some c0) u).handledLocally = false) ∧
    ((processProbe cfg ctx (some c0) u).cacheAfter =
      some ((c0.setCachedResponse u.status u.envoyDegraded))) ∧
    (∀ us : List RespHeaders,
      ∀ r ∈ (processProbes cfg ctx
          (processProbe cfg ctx (some c0) u).cacheAfter us).1,
        r.handledLocally = true ∧ r.response.status = u.status ∧
          r.response.envoyDegraded = u.envoyDegraded) ∧
    (∀ (us : List RespHeaders) (u2 : RespHeaders),
      (processProbe cfg ctx
        (Option.map CacheState.onTimer
          (processProbes cfg ctx
            (processProbe cfg ctx (some c0) u).cacheAfter us).2)
        u2).handledLocally = false) := by
  have h1 := processProbe_stale cfg ctx hpt hf c0 hstale u
  refine ⟨by rw [h1], by rw [h1]; rfl, ?_, ?_⟩
  · intro us r hr
    rw [h1] at hr
    exact (processProbes_cached cfg ctx hf u.status u.envoyDegraded
      us).1 r hr
  · intro us u2
    rw [h1]
    rw [(processProbes_cached cfg ctx hf u.status u.envoyDegraded us).2]
    rw [Option.map_some']
    have hstale2 : (CacheState.onTimer
        ⟨u.status, u.envoyDegraded, true, true⟩).useCachedResponse =
          false := rfl
    rw [processProbe_stale cfg ctx hpt hf _ hstale2 u2]

/-- Witness for C5: a first probe whose upstream answered 503+degraded
seeds the cache; the following probe in the window is answered locally
with 503 and the degraded marker; after the timer fires the next probe is
forwarded again. -/
theorem claim_C5_witness :
    ((processProbe cfgPT ctxOK (some CacheState.construct)
      resp503deg).handledLocally = false) ∧
    (∀ r ∈ (processProbes cfgPT ctxOK
        (processProbe cfgPT ctxOK (some CacheState.construct)
          resp503deg).cacheAfter [resp200]).1,
      r.handledLocally = true ∧ r.response.status = resp503deg.status ∧
        r.response.envoyDegraded = resp503deg.envoyDegraded) ∧
    ((processProbe cfgPT ctxOK
      (Option.map CacheState.onTimer
        (processProbes cfgPT ctxOK
          (processProbe cfgPT ctxOK (some CacheState.construct)
            resp503deg).cacheAfter []).2)
      resp200).handledLocally = false) := by
  have h := claim_C5_cache_window cfgPT ctxOK CacheState.construct
    resp503deg rfl rfl rfl
  exact ⟨h.1, h.2.2.1 [resp200], h.2.2.2 [] resp200⟩

/-- Witness for C10 at a matched pass-through state. -/
theorem claim_C10_witness :
    ((decodeData () true sPassThrough).state = sPassThrough) ∧
    ((decodeTrailers () sPassThrough).status =
      FilterTrailersStatus.Continue) :=
  ⟨(claim_C10_decode_state_frame Unit () () true sPassThrough).1,
    ((claim_C10_decode_state_frame Unit () () true sPassThrough).2.2
      rfl).2.1⟩

/-- C2: For every non-empty ordered sequence of cluster thresholds, the
evaluator's verdict equals the reference definition — it is healthy (200)
exactly when every threshold passes `thresholdPassesSpec` (unresolved
cluster fails; zero total membership passes iff the minimum is 0;
otherwise `(healthy + degraded) / total * 100 ≥ minimum`, with equality
passing), and otherwise it is unhealthy (503).  In particular healthy=50,
degraded=10, total=100 passes threshold 50 and fails threshold 61. -/
theorem claim_C2_cluster_evaluator :
    (∀ (cm : ClusterManager) (items : List ClusterMinHealthyPercentage),
      items ≠ [] →
      ((evaluateClusters cm items = 200 ↔
          ∀ item ∈ items, thresholdPassesSpec cm item) ∧
        (evaluateClusters cm items = 200 ∨
          evaluateClusters cm items = 503))) ∧
    evaluateClusters cmC [thr50] = 200 ∧
    evaluateClusters cmC [thr61] = 503 := by
  refine ⟨fun cm items _ =>
    ⟨evaluateClusters_eq_200_iff cm items,
      evaluateClusters_eq_200_or_503 cm items⟩, ?_, ?_⟩ <;>
    norm_num [evaluateClusters, cmC, thr50, thr61]

/-- Witness for C2 at the concrete one-threshold list over `cmC`. -/
theorem claim_C2_witness :
    ([thr61] ≠ ([] : List ClusterMinHealthyPercentage)) ∧
    (evaluateClusters cmC [thr61] = 200 ↔
      ∀ item ∈ [thr61], thresholdPassesSpec cmC item) :=
  ⟨List.cons_ne_nil thr61 [],
    (claim_C2_cluster_evaluator.1 cmC [thr61]
      (List.cons_ne_nil thr61 [])).1⟩

end HealthCheck
